import Mathlib

/-!
Shallow embedding of the CNPJ ingestion scripts (`scripts/cnpj_to_jsonl.py`,
`scripts/import_to_postgres.py`, `scripts/import_to_mongodb.py`,
`scripts/cnpj_importer.py`) together with proofs about the embedded
functions.  Source-layer values are nullable strings; a string is modelled
as a `List Char` and a nullable value as `Option (List Char)` (pandas `NaN`
is `none`).
-/

namespace Cnpj

/-- A source-layer string value (Python `str`), modelled as its character list. -/
abbrev Str := List Char

/-- Python `str.strip` whitespace class (space, tab, newline, carriage return,
vertical tab, form feed). -/
def pyIsSpace (c : Char) : Bool :=
  c = ' ' || c = '\t' || c = '\n' || c = '\r' || c = '\x0b' || c = '\x0c'

/-- Python `str.strip()`: drop leading and trailing whitespace. -/
def pyStrip (s : Str) : Str :=
  ((s.dropWhile pyIsSpace).reverse.dropWhile pyIsSpace).reverse

/-- Python truthiness of a string: nonempty. -/
def truthy (s : Str) : Bool := !s.isEmpty

/-- Python `str(x)` applied to a nullable cell: pandas `NaN` prints as `"nan"`. -/
def pyStrOpt : Option Str → Str
  | none => "nan".data
  | some s => s

/-- Python `str.zfill(n)` on the unsigned code strings used by the scripts
(left-pad with `'0'` up to width `n`; the sign handling of `zfill` is never
exercised because the inputs are registry codes). -/
def zfill (n : Nat) (s : Str) : Str :=
  if s.length < n then List.replicate (n - s.length) '0' ++ s else s

/-- Numeric value of a digit string, as Python `int`/`float` digit accumulation. -/
def digitsNat (s : Str) : Nat :=
  s.foldl (fun a c => 10 * a + (c.toNat - 48)) 0

/-- From `scripts/cnpj_to_jsonl.py`, `parse_date`: sentinel values (`NaN`, `""`,
`"00000000"`, `"0"`) map to `None`; otherwise the value is stripped and an
8-character result is reformatted `YYYYMMDD → YYYY-MM-DD`, anything else is
returned as stripped. -/
def parse_date (v : Option Str) : Option Str :=
  match v with
  | none => none
  | some s =>
    if s = [] ∨ s = "00000000".data ∨ s = "0".data then none
    else
      let t := pyStrip s
      if t.length = 8 then
        some (t.take 4 ++ '-' :: (t.drop 4).take 2 ++ '-' :: (t.drop 6).take 2)
      else some t

/-- The decimal-literal fragment of the Python `float(...)` constructor:
optional sign, integer digits, optional `'.'` and fraction digits, at least
one digit overall; surrounding whitespace is ignored.  (Scientific notation
and `inf`/`nan` spellings are not reachable from the registry
`capital_social` column and are treated as unparsable.)  Returns `none`
where Python raises `ValueError`. -/
def pyFloat (s : Str) : Option ℚ :=
  let t := pyStrip s
  let sgn : ℚ := match t with | '-' :: _ => -1 | _ => 1
  let u : Str := match t with | '-' :: r => r | '+' :: r => r | r => r
  let ip := u.takeWhile Char.isDigit
  let rest := u.dropWhile Char.isDigit
  match rest with
  | [] => if ip = [] then none else some (sgn * digitsNat ip)
  | '.' :: fp =>
    if fp.all Char.isDigit ∧ (ip ≠ [] ∨ fp ≠ []) then
      some (sgn * ((digitsNat ip : ℚ) + (digitsNat fp : ℚ) / (10 ^ fp.length)))
    else none
  | _ => none

/-- The string transform inside `parse_capital_social`:
`str(value).replace('.', '').replace(',', '.')`. -/
def capitalTransform (s : Str) : Str :=
  (s.filter (fun c => !(c == '.'))).map (fun c => if c = ',' then '.' else c)

/-- From `scripts/cnpj_to_jsonl.py`, `parse_capital_social`: `NaN`/empty map to `0.0`,
otherwise the Brazilian-locale string is normalised and fed to `float`, any
parse failure (the bare `except`) yielding `0.0`. -/
def parse_capital_social (v : Option Str) : ℚ :=
  match v with
  | none => 0
  | some s =>
    if s = [] then 0
    else
      match pyFloat (capitalTransform s) with
      | some q => q
      | none => 0

/-! ### Lemmas about stripping digit strings -/

theorem pyIsSpace_of_isDigit {c : Char} (h : c.isDigit = true) : pyIsSpace c = false := by
  by_contra hs
  rw [Bool.not_eq_false] at hs
  simp only [pyIsSpace, Bool.or_eq_true, decide_eq_true_eq] at hs
  rcases hs with ((((rfl | rfl) | rfl) | rfl) | rfl) | rfl <;> simp [Char.isDigit] at h

theorem dropWhile_eq_self_of (p : Char → Bool) (l : Str) (h : ∀ c ∈ l, p c = false) :
    l.dropWhile p = l := by
  cases l with
  | nil => rfl
  | cons a as => simp [List.dropWhile_cons, h a (List.mem_cons_self a as)]

theorem pyStrip_eq_self {l : Str} (h : ∀ c ∈ l, pyIsSpace c = false) : pyStrip l = l := by
  unfold pyStrip
  rw [dropWhile_eq_self_of _ _ h, dropWhile_eq_self_of, List.reverse_reverse]
  intro c hc
  exact h c (List.mem_reverse.mp hc)

/-- C5: a date field equal to `"00000000"`, `"0"`, or the empty string (or
missing) is parsed by `parse_date` to null; every other 8-character digit
string `YYYYMMDD` is parsed to the string `YYYY-MM-DD` built from those
digits. -/
theorem parse_date_sentinels_and_digits :
    parse_date none = none
    ∧ parse_date (some []) = none
    ∧ parse_date (some "00000000".data) = none
    ∧ parse_date (some "0".data) = none
    ∧ ∀ l : Str, (∀ c ∈ l, c.isDigit = true) → l.length = 8 → l ≠ "00000000".data →
        parse_date (some l) =
          some (l.take 4 ++ '-' :: (l.drop 4).take 2 ++ '-' :: (l.drop 6).take 2) := by
  refine ⟨rfl, rfl, by decide, by decide, ?_⟩
  intro l hdig hlen hne
  have hstrip : pyStrip l = l :=
    pyStrip_eq_self (fun c hc => pyIsSpace_of_isDigit (hdig c hc))
  have h0 : ¬(l = [] ∨ l = "00000000".data ∨ l = "0".data) := by
    rintro (rfl | h | rfl)
    · simp at hlen
    · exact hne h
    · simp at hlen
  simp only [parse_date]
  rw [if_neg h0]
  simp only [hstrip]
  rw [if_pos hlen]

/-- Witness for C5 at the concrete date string `"20240131"`. -/
theorem parse_date_sentinels_and_digits_witness :
    parse_date (some "20240131".data) =
      some ("20240131".data.take 4 ++ '-' :: ("20240131".data.drop 4).take 2
        ++ '-' :: ("20240131".data.drop 6).take 2) :=
  parse_date_sentinels_and_digits.2.2.2.2 "20240131".data (by decide) (by decide) (by decide)

/-- C10: a present, non-sentinel value whose stripped form does not have
length 8 passes through `parse_date` as the stripped string itself — no
null, no error. -/
theorem parse_date_passthrough (l : Str) (h0 : l ≠ []) (h1 : l ≠ "00000000".data)
    (h2 : l ≠ "0".data) (hlen : (pyStrip l).length ≠ 8) :
    parse_date (some l) = some (pyStrip l) := by
  simp only [parse_date]
  rw [if_neg (by tauto)]
  rw [if_neg hlen]

/-- Witness for C10 at the malformed date string `"24/05/2024"`. -/
theorem parse_date_passthrough_witness :
    parse_date (some "24/05/2024".data) = some (pyStrip "24/05/2024".data) :=
  parse_date_passthrough "24/05/2024".data (by decide) (by decide) (by decide) (by decide)

/-- C6: `parse_capital_social` maps the Brazilian-locale string `"1.234,56"`
to the number `1234.56`; it maps a missing or empty value, and any value the
float parser rejects, to `0.0`; being a total function, no exception escapes
it. -/
theorem parse_capital_social_spec :
    parse_capital_social (some "1.234,56".data) = (1234.56 : ℚ)
    ∧ parse_capital_social none = 0
    ∧ parse_capital_social (some []) = 0
    ∧ ∀ s : Str, pyFloat (capitalTransform s) = none → parse_capital_social (some s) = 0 := by
  refine ⟨?_, rfl, rfl, ?_⟩
  · have h : parse_capital_social (some "1.234,56".data) = 1 * ((1234 : ℚ) + 56 / 10 ^ 2) := rfl
    rw [h]
    norm_num
  · intro s hs
    by_cases he : s = []
    · subst he
      rfl
    · simp only [parse_capital_social]
      rw [if_neg he, hs]

/-- Witness for the unparsable branch of C6 at the concrete value `"abc"`. -/
theorem parse_capital_social_spec_witness :
    parse_capital_social (some "abc".data) = 0 :=
  parse_capital_social_spec.2.2.2 "abc".data rfl

/-! ### The PostgreSQL bulk loader (`scripts/import_to_postgres.py`)

The destination database is modelled as an association list from table name
to a table (declared column list plus stored rows); every destination value
is opaque nullable text, as in the scripts.  Interactive confirmation
prompts and the `PG_FORCE_RECREATE` environment flag are modelled as boolean
parameters resolved before the call, and the outcome of each `COPY`
statement is a boolean per batch index (the sink either accepts the whole
batch or raises). -/

/-- One destination row: opaque nullable text per column. -/
abbrev PgRow := List (Option Str)

/-- A destination table: its live column list and its rows. -/
structure PgTable where
  cols : List String
  rows : List PgRow
deriving DecidableEq, Repr

/-- The destination database: table name to table. -/
abbrev PgDatabase := List (String × PgTable)

/-- Look a table up by name (`information_schema.columns` query). -/
def dbGet (db : PgDatabase) (table : String) : Option PgTable :=
  (db.find? (fun p => p.1 == table)).map (·.2)

/-- Install (create or replace) a table under a name. -/
def dbSet (db : PgDatabase) (table : String) (tbl : PgTable) : PgDatabase :=
  if db.any (fun p => p.1 == table) then
    db.map (fun p => if p.1 == table then (table, tbl) else p)
  else db ++ [(table, tbl)]

/-- Schema reconciliation, `ensure_table_schema(conn, table, columns)`: create the table when
absent; succeed when the live column list matches; on a mismatch recreate
(empty) when the force flag or the interactive confirmation says yes, and
otherwise leave the table untouched and return `false`. -/
def ensure_table_schema (force confirm : Bool) (db : PgDatabase) (table : String)
    (columns : List String) : PgDatabase × Bool :=
  match dbGet db table with
  | none => (dbSet db table ⟨columns, []⟩, true)
  | some tbl =>
    if tbl.cols = columns then (db, true)
    else if force || confirm then (dbSet db table ⟨columns, []⟩, true)
    else (db, false)

/-- Truncation policy, `maybe_truncate_table(conn, table)`: when the table holds rows, clear it
exactly when the (policy-resolved) answer is yes. -/
def maybe_truncate_table (truncAns : Bool) (db : PgDatabase) (table : String) : PgDatabase :=
  match dbGet db table with
  | none => db
  | some tbl =>
    if 0 < tbl.rows.length && truncAns then dbSet db table ⟨tbl.cols, []⟩ else db

/-- Append one accepted `COPY` batch to the rows of a table. -/
def insertRows (db : PgDatabase) (table : String) (batch : List PgRow) : PgDatabase :=
  match dbGet db table with
  | none => db
  | some tbl => dbSet db table ⟨tbl.cols, tbl.rows ++ batch⟩

/-- The batch loop of `import_parquet_to_postgres`: apply `copy_batch` to
each batch in order, accumulating the inserted count; a batch whose `COPY`
raises (`copyOk` false at that index) aborts the loop with `none`. -/
def pgCopyLoop (copyOk : Nat → Bool) (table : String) :
    Nat → PgDatabase → Nat → List (List PgRow) → Option (PgDatabase × Nat)
  | _, db, acc, [] => some (db, acc)
  | i, db, acc, b :: bs =>
    if copyOk i then pgCopyLoop copyOk table (i + 1) (insertRows db table b) (acc + b.length) bs
    else none

/-- Table transfer, `import_parquet_to_postgres(file_path, conn)`: ensure the schema (abort
with 0 rows on failure), maybe truncate, then stream the batches; any
exception in the batch loop rolls the transaction back to the last committed
state and the import of the table reports 0 rows. -/
def import_parquet_to_postgres (force confirm truncAns : Bool) (copyOk : Nat → Bool)
    (db : PgDatabase) (table : String) (columns : List String)
    (batches : List (List PgRow)) : PgDatabase × Nat :=
  let r := ensure_table_schema force confirm db table columns
  if !r.2 then (r.1, 0)
  else
    let db2 := maybe_truncate_table truncAns r.1 table
    match pgCopyLoop copyOk table 0 db2 0 batches with
    | some (db3, n) => (db3, n)
    | none => (db2, 0)

/-- C1: for an existing destination table whose column list differs from the
declared schema, force-recreate drops and recreates it with the declared
columns (leaving it empty) and reports success; with no force and the
confirmation declined, the table is left untouched, the reconciliation
returns the failure value `false` (no exception: the function is total), and
the import of that table then inserts zero rows. -/
theorem ensure_table_schema_policy (confirm truncAns : Bool) (copyOk : Nat → Bool)
    (db : PgDatabase) (table : String) (columns : List String) (tbl : PgTable)
    (hex : dbGet db table = some tbl) (hdiff : tbl.cols ≠ columns)
    (batches : List (List PgRow)) :
    ensure_table_schema true confirm db table columns = (dbSet db table ⟨columns, []⟩, true)
    ∧ ensure_table_schema false false db table columns = (db, false)
    ∧ import_parquet_to_postgres false false truncAns copyOk db table columns batches
        = (db, 0) := by
  have h1 : ensure_table_schema true confirm db table columns
      = (dbSet db table ⟨columns, []⟩, true) := by
    simp [ensure_table_schema, hex, hdiff]
  have h2 : ensure_table_schema false false db table columns = (db, false) := by
    simp [ensure_table_schema, hex, hdiff]
  refine ⟨h1, h2, ?_⟩
  simp [import_parquet_to_postgres, h2]

/-- Witness for C1 at a one-table database whose live column list disagrees
with the declared schema. -/
theorem ensure_table_schema_policy_witness :
    ensure_table_schema true false [("empresas", ⟨["a"], [[some ['x']]]⟩)] "empresas"
        ["a", "b"]
      = (dbSet [("empresas", ⟨["a"], [[some ['x']]]⟩)] "empresas" ⟨["a", "b"], []⟩, true)
    ∧ ensure_table_schema false false [("empresas", ⟨["a"], [[some ['x']]]⟩)] "empresas"
        ["a", "b"]
      = ([("empresas", ⟨["a"], [[some ['x']]]⟩)], false)
    ∧ import_parquet_to_postgres false false true (fun _ => true)
        [("empresas", ⟨["a"], [[some ['x']]]⟩)] "empresas" ["a", "b"] [[[none, none]]]
      = ([("empresas", ⟨["a"], [[some ['x']]]⟩)], 0) :=
  ensure_table_schema_policy false true (fun _ => true)
    [("empresas", ⟨["a"], [[some ['x']]]⟩)] "empresas" ["a", "b"] ⟨["a"], [[some ['x']]]⟩
    (by decide) (by decide) [[[none, none]]]

/-! ### The MongoDB bulk loader (`scripts/import_to_mongodb.py`)

The large-file branch of `import_parquet_to_mongodb` iterates over fixed
size batches.  `insert_many(records, ordered=False)` either returns all the
inserted ids, or raises `BulkWriteError` carrying `nInserted` and a
`writeErrors` list — the per-index behaviour of the sink is a parameter. -/

/-- One document: field name to nullable value. -/
abbrev MongoDoc := List (String × Option Str)

/-- Outcome of one `insert_many` call. -/
inductive MongoBatchResult where
  | ok (inserted : Nat)
  | bulkError (nInserted : Nat) (writeErrors : List String)
deriving DecidableEq, Repr

/-- The batch loop of `import_parquet_to_mongodb`: for each batch, the call to
`insert_many` adds either all its ids or the `nInserted` of its
`BulkWriteError` to the running total, and the loop always proceeds to the
next batch; write errors are surfaced alongside the count. -/
def mongoImportLoop (sink : Nat → MongoBatchResult) :
    Nat → List (List MongoDoc) → Nat × List String
  | _, [] => (0, [])
  | i, _ :: bs =>
    match sink i with
    | .ok k =>
      let r := mongoImportLoop sink (i + 1) bs
      (k + r.1, r.2)
    | .bulkError k errs =>
      let r := mongoImportLoop sink (i + 1) bs
      (k + r.1, errs ++ r.2)

/-- Counterexample to C2: in the PostgreSQL loader a batch the sink rejects
aborts the whole table transfer instead of continuing.  Two one-row batches,
the sink rejecting batch 0 and accepting batch 1: the import reports 0 rows
and the destination still holds no row from batch 1 (the claim predicts the
accepted count 1 and a continued transfer). -/
theorem pg_partial_batch_counterexample :
    import_parquet_to_postgres false false false (fun i => i != 0)
        [("socios", ⟨["a"], []⟩)] "socios" ["a"]
        [[[some ['x']]], [[some ['y']]]]
      = ([("socios", ⟨["a"], []⟩)], 0)
    ∧ (import_parquet_to_postgres false false false (fun i => i != 0)
        [("socios", ⟨["a"], []⟩)] "socios" ["a"]
        [[[some ['x']]], [[some ['y']]]]).2 ≠ 1 := by
  constructor
  · rfl
  · decide

/-- A rejected `COPY` at any batch position makes the batch loop raise:
whatever was inserted by the earlier, accepted batches of the loop is
abandoned with the `none` outcome (the caller rolls back to the state the
loop started from). -/
theorem pgCopyLoop_none (copyOk : Nat → Bool) (table : String) :
    ∀ (bs : List (List PgRow)) (i : Nat) (db : PgDatabase) (acc j : Nat),
      j < bs.length → copyOk (i + j) = false →
      pgCopyLoop copyOk table i db acc bs = none := by
  intro bs
  induction bs with
  | nil =>
    intro i db acc j hj _
    simp at hj
  | cons b bs ih =>
    intro i db acc j hj hfail
    by_cases h0 : copyOk i = true
    · cases j with
      | zero =>
        rw [Nat.add_zero] at hfail
        rw [hfail] at h0
        exact absurd h0 (by simp)
      | succ j2 =>
        simp only [pgCopyLoop, h0, if_true]
        exact ih (i + 1) (insertRows db table b) (acc + b.length) j2
          (by simpa using hj)
          (by rw [show i + 1 + j2 = i + (j2 + 1) from by omega]; exact hfail)
    · simp only [Bool.not_eq_true] at h0
      simp [pgCopyLoop, h0]

/-- C2 as amended: the MongoDB loader surfaces, for a batch whose insert
raises `BulkWriteError`, the `nInserted` count plus the write-error list,
and continues with the remaining batches of the same collection; the
PostgreSQL loader instead aborts the whole table transfer on the first
rejected `COPY` batch, wherever it falls: the transaction rolls back to the
last committed (post-truncation, pre-copy) state — discarding every
previously accepted batch of that table — and the import reports zero
rows. -/
theorem partial_batch_amended :
    (∀ (sink : Nat → MongoBatchResult) (i k : Nat) (errs : List String)
        (b : List MongoDoc) (bs : List (List MongoDoc)),
        sink i = .bulkError k errs →
        mongoImportLoop sink i (b :: bs)
          = (k + (mongoImportLoop sink (i + 1) bs).1,
             errs ++ (mongoImportLoop sink (i + 1) bs).2))
    ∧ (∀ (force confirm truncAns : Bool) (copyOk : Nat → Bool) (db : PgDatabase)
        (table : String) (columns : List String) (tbl : PgTable)
        (batches : List (List PgRow)) (j : Nat),
        dbGet db table = some tbl → tbl.cols = columns →
        j < batches.length → copyOk j = false →
        import_parquet_to_postgres force confirm truncAns copyOk db table columns batches
          = (maybe_truncate_table truncAns db table, 0)) := by
  constructor
  · intro sink i k errs b bs hs
    simp [mongoImportLoop, hs]
  · intro force confirm truncAns copyOk db table columns tbl batches j hget hcols hj hfail
    have hnone : pgCopyLoop copyOk table 0 (maybe_truncate_table truncAns db table) 0 batches
        = none :=
      pgCopyLoop_none copyOk table batches 0 _ 0 j hj (by rwa [Nat.zero_add])
    simp [import_parquet_to_postgres, ensure_table_schema, hget, hcols, hnone]

/-- Witness for the amended C2: a concrete partially rejected MongoDB batch
followed by an accepted one, and a concrete PostgreSQL transfer whose
second batch is rejected after the first was accepted — the accepted first
batch is discarded with the rollback and 0 rows are reported. -/
theorem partial_batch_amended_witness :
    mongoImportLoop
        (fun i => if i = 0 then .bulkError 7 ["E11000"] else .ok 5) 0 [[], []]
      = (7 + (mongoImportLoop
          (fun i => if i = 0 then .bulkError 7 ["E11000"] else .ok 5) 1 [[]]).1,
         ["E11000"] ++ (mongoImportLoop
          (fun i => if i = 0 then .bulkError 7 ["E11000"] else .ok 5) 1 [[]]).2)
    ∧ import_parquet_to_postgres false false false (fun i => i != 1)
        [("simples", ⟨["a"], []⟩)] "simples" ["a"] [[[some ['x']]], [[some ['y']]]]
      = (maybe_truncate_table false [("simples", ⟨["a"], []⟩)] "simples", 0) :=
  ⟨partial_batch_amended.1
      (fun i => if i = 0 then .bulkError 7 ["E11000"] else .ok 5) 0 7 ["E11000"] [] [[]]
      (by decide),
   partial_batch_amended.2 false false false (fun i => i != 1)
      [("simples", ⟨["a"], []⟩)] "simples" ["a"] ⟨["a"], []⟩
      [[[some ['x']]], [[some ['y']]]] 1 (by decide) (by decide) (by decide) (by decide)⟩

/-! ### The orchestrator (`scripts/import_to_postgres.py`, `main`)

`main` walks `IMPORT_ORDER`; a table with no parquet file is skipped,
otherwise the file counts toward the total and toward the successes exactly
when its import returned a positive row count.  The per-table import result
is abstracted as `outcome : String → Option Nat` (`none` = no file). -/

/-- The declared table dependency order. -/
def IMPORT_ORDER : List String :=
  ["motivos", "municipios", "natureza", "qualificacoes", "paises",
   "empresas", "estabelecimentos", "socios", "simples", "cnaes"]

/-- The import attempt of a table succeeded (file present, positive row count). -/
def outcomeSuccess (outcome : String → Option Nat) (t : String) : Bool :=
  match outcome t with
  | some n => decide (0 < n)
  | none => false

/-- The import of a table was attempted (its parquet file was present). -/
def outcomeAttempted (outcome : String → Option Nat) (t : String) : Bool :=
  (outcome t).isSome

/-- The accumulation loop of `main`: fold over the declared order, counting
`successful_imports` and `total_files`. -/
def orchestrate (outcome : String → Option Nat) : Nat × Nat :=
  IMPORT_ORDER.foldl
    (fun acc table =>
      match outcome table with
      | none => acc
      | some n => (acc.1 + if 0 < n then 1 else 0, acc.2 + 1))
    (0, 0)

theorem orchestrate_foldl_eq (outcome : String → Option Nat) (l : List String)
    (a b : Nat) :
    l.foldl
      (fun acc table =>
        match outcome table with
        | none => acc
        | some n => (acc.1 + if 0 < n then 1 else 0, acc.2 + 1))
      (a, b)
      = (a + l.countP (outcomeSuccess outcome), b + l.countP (outcomeAttempted outcome)) := by
  induction l generalizing a b with
  | nil => simp
  | cons t l ih =>
    simp only [List.foldl_cons, List.countP_cons]
    cases h : outcome t with
    | none =>
      rw [ih]
      simp [outcomeSuccess, outcomeAttempted, h]
    | some n =>
      rw [ih]
      simp only [outcomeSuccess, outcomeAttempted, h, Option.isSome_some]
      by_cases hn : 0 < n <;> simp [hn] <;> omega

theorem countP_succ_le_attempted (outcome : String → Option Nat) (l : List String) :
    l.countP (outcomeSuccess outcome) ≤ l.countP (outcomeAttempted outcome) := by
  induction l with
  | nil => simp
  | cons t l ih =>
    simp only [List.countP_cons]
    have : outcomeSuccess outcome t = true → outcomeAttempted outcome t = true := by
      simp only [outcomeSuccess, outcomeAttempted]
      cases outcome t <;> simp
    by_cases hs : outcomeSuccess outcome t = true
    · simp [hs, this hs]
      omega
    · simp only [Bool.not_eq_true] at hs
      rw [hs]
      by_cases ha : outcomeAttempted outcome t = true <;> simp [ha] <;> omega

theorem countP_lt_iff_failure (outcome : String → Option Nat) (l : List String) :
    l.countP (outcomeSuccess outcome) < l.countP (outcomeAttempted outcome)
      ↔ ∃ t ∈ l, outcome t = some 0 := by
  induction l with
  | nil => simp
  | cons t l ih =>
    simp only [List.countP_cons, List.mem_cons]
    cases h : outcome t with
    | none =>
      simp only [outcomeSuccess, outcomeAttempted, h]
      simp only [Option.isSome_none]
      constructor
      · intro hlt
        rcases ih.mp (by omega) with ⟨u, hu, hozero⟩
        exact ⟨u, Or.inr hu, hozero⟩
      · rintro ⟨u, hu | hu, hozero⟩
        · subst hu
          rw [h] at hozero
          exact absurd hozero (by simp)
        · have := ih.mpr ⟨u, hu, hozero⟩
          omega
    | some n =>
      rcases Nat.eq_zero_or_pos n with rfl | hn
      · have hs : outcomeSuccess outcome t = false := by simp [outcomeSuccess, h]
        have ha : outcomeAttempted outcome t = true := by simp [outcomeAttempted, h]
        rw [hs, ha]
        simp only [if_false, if_true, Bool.false_eq_true]
        have hle := countP_succ_le_attempted outcome l
        constructor
        · intro _
          exact ⟨t, Or.inl rfl, h⟩
        · intro _
          omega
      · have hs : outcomeSuccess outcome t = true := by
          simp [outcomeSuccess, h, hn]
        have ha : outcomeAttempted outcome t = true := by simp [outcomeAttempted, h]
        rw [hs, ha]
        simp only [if_true]
        constructor
        · intro hlt
          rcases ih.mp (by omega) with ⟨u, hu, hozero⟩
          exact ⟨u, Or.inr hu, hozero⟩
        · rintro ⟨u, hu | hu, hozero⟩
          · subst hu
            rw [h] at hozero
            have : n = 0 := by injection hozero
            omega
          · have := ih.mpr ⟨u, hu, hozero⟩
            omega

/-- C8: the orchestrator folds over every table in the declared dependency
order regardless of individual failures, its accumulated summary is the
success count over the attempted-file count, and the final exit status is
non-zero (`successful < total`) exactly when the import of at least one
attempted table failed (returned 0 rows). -/
theorem orchestrator_summary (outcome : String → Option Nat) :
    orchestrate outcome
      = (IMPORT_ORDER.countP (outcomeSuccess outcome),
         IMPORT_ORDER.countP (outcomeAttempted outcome))
    ∧ ((orchestrate outcome).1 < (orchestrate outcome).2
        ↔ ∃ t ∈ IMPORT_ORDER, outcome t = some 0) := by
  have h : orchestrate outcome
      = (IMPORT_ORDER.countP (outcomeSuccess outcome),
         IMPORT_ORDER.countP (outcomeAttempted outcome)) := by
    unfold orchestrate
    rw [orchestrate_foldl_eq]
    simp
  refine ⟨h, ?_⟩
  rw [h]
  exact countP_lt_iff_failure outcome IMPORT_ORDER

/-! ### The document assembler (`scripts/cnpj_to_jsonl.py`)

Lookup tables are Python dicts built by `dict(zip(codes, descriptions))`;
`lookups` itself is a dict that only holds the tables whose CSV file existed
(`if os.path.exists`).  Indexing the lookups dict at a table name raises `KeyError`
when the table was never loaded — modelled by `Except Unit`; `.get(k, None)`
on a loaded table is total and modelled by `dictGet`. -/

/-- A loaded lookup table: code/description pairs in file order. -/
abbrev LookupTable := List (Str × Str)

/-- Python `dict.get(k, None)` on a dict built from pairs: the *last* pair
with the key wins, a missing key gives `None`. -/
def dictGet (t : LookupTable) (k : Str) : Option Str :=
  (t.reverse.find? (fun p => p.1 == k)).map (·.2)

/-- The `lookups` dict: one entry per reference table, present only when its
CSV file existed at load time. -/
structure Lookups where
  cnaes : Option LookupTable
  municipios : Option LookupTable
  natureza : Option LookupTable
  qualificacoes : Option LookupTable
  paises : Option LookupTable
  motivos : Option LookupTable
deriving DecidableEq, Repr

/-- The six reference CSV files: `none` when the file is absent from
`data_outgoing`, otherwise its parsed code/description pairs. -/
structure LookupFiles where
  cnaes : Option LookupTable
  municipios : Option LookupTable
  natureza : Option LookupTable
  qualificacoes : Option LookupTable
  paises : Option LookupTable
  motivos : Option LookupTable
deriving DecidableEq, Repr

/-- Reference loading, `load_lookup_tables()`: each table is loaded exactly when its file
exists; an absent file is skipped silently — the function is total and has
no failure path. -/
def load_lookup_tables (fs : LookupFiles) : Lookups :=
  ⟨fs.cnaes, fs.municipios, fs.natureza, fs.qualificacoes, fs.paises, fs.motivos⟩

/-- Python `lookups[name]`: `KeyError` when the table was never loaded. -/
def getTable (t : Option LookupTable) : Except Unit LookupTable :=
  match t with
  | none => .error ()
  | some tbl => .ok tbl

/-- Company size description, `get_porte_descricao(codigo)` (the inner dict `.get` with its default). -/
def get_porte_descricao (codigo : Option Str) : Str :=
  let k := zfill 2 (pyStrOpt codigo)
  if k = "00".data then "Não informado".data
  else if k = "01".data then "Micro Empresa".data
  else if k = "03".data then "Empresa de Pequeno Porte".data
  else if k = "05".data then "Demais".data
  else "Não informado".data

/-- Registration status description, `get_situacao_descricao(codigo)`. -/
def get_situacao_descricao (codigo : Option Str) : Str :=
  let k := zfill 2 (pyStrOpt codigo)
  if k = "01".data then "Nula".data
  else if k = "02".data then "Ativa".data
  else if k = "03".data then "Suspensa".data
  else if k = "04".data then "Inapta".data
  else if k = "08".data then "Baixada".data
  else "Não informada".data

/-- One `estabelecimentos.csv` row (columns of `COLS_ESTABELECIMENTOS`).
The three CNPJ components are required text (the script slices and
concatenates them unconditionally); every other column is nullable. -/
structure EstabRow where
  cnpj_basico : Str
  cnpj_ordem : Str
  cnpj_dv : Str
  identificador_matriz_filial : Option Str := none
  nome_fantasia : Option Str := none
  situacao_cadastral : Option Str := none
  data_situacao_cadastral : Option Str := none
  motivo_situacao_cadastral : Option Str := none
  nome_da_cidade_no_exterior : Option Str := none
  pais : Option Str := none
  data_de_inicio_da_atividade : Option Str := none
  cnae_fiscal_principal : Option Str := none
  cnae_fiscal_secundaria : Option Str := none
  tipo_de_logradouro : Option Str := none
  logradouro : Option Str := none
  numero : Option Str := none
  complemento : Option Str := none
  bairro : Option Str := none
  cep : Option Str := none
  uf : Option Str := none
  municipio : Option Str := none
  ddd1 : Option Str := none
  telefone1 : Option Str := none
  ddd2 : Option Str := none
  telefone2 : Option Str := none
  ddd_do_fax : Option Str := none
  fax : Option Str := none
  correio_eletronico : Option Str := none
  situacao_especial : Option Str := none
  data_da_situacao_especial : Option Str := none
deriving DecidableEq, Repr

/-- A `{codigo, descricao}` sub-object. -/
structure CodeDesc where
  codigo : Option Str
  descricao : Option Str
deriving DecidableEq, Repr, Inhabited

/-- A `{codigo, nome}` sub-object (municipio / pais). -/
structure CodeName where
  codigo : Option Str
  nome : Option Str
deriving DecidableEq, Repr, Inhabited

/-- The `situacao_cadastral` sub-object: its description is always a string. -/
structure SituacaoInfo where
  codigo : Option Str
  descricao : Str
deriving DecidableEq, Repr, Inhabited

/-- The `endereco` sub-object. -/
structure Endereco where
  tipo_logradouro : Option Str
  logradouro : Option Str
  numero : Option Str
  complemento : Option Str
  bairro : Option Str
  cep : Option Str
  uf : Option Str
  municipio : Option CodeName
  pais : Option CodeName
deriving DecidableEq, Repr, Inhabited

/-- The assembled establishment document of `build_estabelecimento`.  The
`contato` field carries the key/value pairs surviving the None-filter, or
`none` once the filtered dict is empty. -/
structure Estab where
  cnpj : Str
  cnpj_formatado : Str
  matriz : Bool
  nome_fantasia : Option Str
  situacao_cadastral : SituacaoInfo
  data_situacao_cadastral : Option Str
  motivo_situacao_cadastral : Option CodeDesc
  data_inicio_atividade : Option Str
  cnae_principal : Option CodeDesc
  cnaes_secundarios : List Str
  endereco : Endereco
  contato : Option (List (String × Str))
deriving DecidableEq, Repr, Inhabited

/-- Python `str.lower()` (ASCII case mapping, as used on e-mail values). -/
def pyLower (s : Str) : Str := s.map Char.toLower

/-- The `contato` block of `build_estabelecimento`: four conditional
entries, `None` entries removed, the empty dict collapsed to `None`. -/
def mkContato (row : EstabRow) : Option (List (String × Str)) :=
  let tel1 : Option Str :=
    match row.ddd1, row.telefone1 with
    | some d, some t => if truthy t then some ('(' :: d ++ ')' :: ' ' :: t) else none
    | _, _ => none
  let tel2 : Option Str :=
    match row.ddd2, row.telefone2 with
    | some d, some t => if truthy t then some ('(' :: d ++ ')' :: ' ' :: t) else none
    | _, _ => none
  let faxv : Option Str :=
    match row.ddd_do_fax, row.fax with
    | some d, some t => if truthy t then some ('(' :: d ++ ')' :: ' ' :: t) else none
    | _, _ => none
  let email : Option Str :=
    match row.correio_eletronico with
    | some e => if truthy e then some (pyLower e) else none
    | none => none
  let entries :=
    ([("telefone1", tel1), ("telefone2", tel2), ("fax", faxv), ("email", email)] :
        List (String × Option Str)).filterMap
      (fun p => p.2.map (fun v => (p.1, v)))
  if entries.isEmpty then none else some entries

/-- The `motivo_situacao_cadastral` entry: absent code gives `None`; a
present code indexes the `motivos` lookup (KeyError when never loaded) and
`.get`s the zero-padded code. -/
def buildMotivo (row : EstabRow) (lookups : Lookups) : Except Unit (Option CodeDesc) :=
  match row.motivo_situacao_cadastral with
  | none => .ok none
  | some m => (getTable lookups.motivos).map
      (fun t => some ⟨some m, dictGet t (zfill 2 m)⟩)

/-- The `cnae_principal` entry (un-padded key into the `cnaes` lookup). -/
def buildCnaePrincipal (row : EstabRow) (lookups : Lookups) : Except Unit (Option CodeDesc) :=
  match row.cnae_fiscal_principal with
  | none => .ok none
  | some c => (getTable lookups.cnaes).map (fun t => some ⟨some c, dictGet t c⟩)

/-- The `endereco.municipio` entry. -/
def buildMunicipio (row : EstabRow) (lookups : Lookups) : Except Unit (Option CodeName) :=
  match row.municipio with
  | none => .ok none
  | some m => (getTable lookups.municipios).map (fun t => some ⟨some m, dictGet t m⟩)

/-- The `endereco.pais` entry (requires a non-null, non-empty code). -/
def buildPaisEstab (row : EstabRow) (lookups : Lookups) : Except Unit (Option CodeName) :=
  match row.pais with
  | none => .ok none
  | some p =>
    if truthy p then (getTable lookups.paises).map (fun t => some ⟨some p, dictGet t p⟩)
    else .ok none

/-- Establishment assembly, `build_estabelecimento(row, lookups)`: the assembled establishment, or
the `KeyError` of indexing a never-loaded lookup table. -/
def build_estabelecimento (row : EstabRow) (lookups : Lookups) : Except Unit Estab := do
  let motivo ← buildMotivo row lookups
  let cnae ← buildCnaePrincipal row lookups
  let municipio ← buildMunicipio row lookups
  let pais ← buildPaisEstab row lookups
  .ok {
    cnpj := row.cnpj_basico ++ row.cnpj_ordem ++ row.cnpj_dv
    cnpj_formatado :=
      row.cnpj_basico.take 2 ++ '.' :: (row.cnpj_basico.drop 2).take 3
        ++ '.' :: (row.cnpj_basico.drop 5).take 3
        ++ '/' :: row.cnpj_ordem ++ '-' :: row.cnpj_dv
    matriz := row.identificador_matriz_filial == some "1".data
    nome_fantasia := row.nome_fantasia
    situacao_cadastral := ⟨row.situacao_cadastral, get_situacao_descricao row.situacao_cadastral⟩
    data_situacao_cadastral := parse_date row.data_situacao_cadastral
    motivo_situacao_cadastral := motivo
    data_inicio_atividade := parse_date row.data_de_inicio_da_atividade
    cnae_principal := cnae
    cnaes_secundarios :=
      match row.cnae_fiscal_secundaria with
      | some s => if truthy s then s.splitOn ',' else []
      | none => []
    endereco := {
      tipo_logradouro := row.tipo_de_logradouro
      logradouro := row.logradouro
      numero := row.numero
      complemento := row.complemento
      bairro := row.bairro
      cep := row.cep
      uf := row.uf
      municipio := municipio
      pais := pais }
    contato := mkContato row }

/-! ### Child grouping, ordering and the company document (`main`) -/

/-- Python string `<`: lexicographic comparison by code point, a proper
prefix comparing smaller. -/
def strLtB : Str → Str → Bool
  | [], [] => false
  | [], _ :: _ => true
  | _ :: _, [] => false
  | a :: as, b :: bs => if a < b then true else if b < a then false else strLtB as bs

/-- The sort key comparison of
the establishment list, `key=lambda x: (not x[matriz], x[cnpj])`:
Python tuple `<` on `(bool, str)`. -/
def estabKeyLt (a b : Estab) : Bool :=
  if (!a.matriz) = (!b.matriz) then strLtB a.cnpj b.cnpj
  else !(!a.matriz) && !b.matriz

/-- Stable insertion into a sorted list, placing `x` before the first
element it need not follow (`le x y`). -/
def insertLe {α : Type} (le : α → α → Bool) (x : α) : List α → List α
  | [] => [x]
  | y :: ys => if le x y then x :: y :: ys else y :: insertLe le x ys

/-- A stable ascending sort, as Python `list.sort`. -/
def sortByLe {α : Type} (le : α → α → Bool) : List α → List α
  | [] => []
  | x :: xs => insertLe le x (sortByLe le xs)

/-- The establishment ordering of `main`: stable ascending sort by
`(not matriz, cnpj)`. -/
def sortEstabs (l : List Estab) : List Estab :=
  sortByLe (fun a b => !(estabKeyLt b a)) l

/-- The grouped establishments table (`estabelecimentos_df.groupby(cnpj_basico)`):
group key to the rows of the group in file order. -/
abbrev GroupedEstabs := List (Str × List EstabRow)

/-- Group retrieval, `grouped.get_group(key)` minus the raise: `none` models the `KeyError`
for an absent key. -/
def get_group (g : GroupedEstabs) (key : Str) : Option (List EstabRow) :=
  (g.find? (fun p => p.1 == key)).map (·.2)

/-- The append loop in the `try` block of `main`: build each establishment in
group order; the `KeyError` of a failing build aborts the loop, keeping the
documents appended so far (flag `false`). -/
def build_estabs_loop (lookups : Lookups) : List EstabRow → List Estab × Bool
  | [] => ([], true)
  | r :: rs =>
    match build_estabelecimento r lookups with
    | .error _ => ([], false)
    | .ok e =>
      let rest := build_estabs_loop lookups rs
      (e :: rest.1, rest.2)

/-- The establishment-list assembly in `main`: start from `[]`; a
missing group (`KeyError` from `get_group`) leaves it empty; otherwise the
group is built row by row and, when no build raised, sorted — a `KeyError`
escaping a build is swallowed by the same `except`, leaving the partial,
unsorted list. -/
def doc_estabs (g : GroupedEstabs) (key : Str) (lookups : Lookups) : List Estab :=
  match get_group g key with
  | none => []
  | some rows =>
    let r := build_estabs_loop lookups rows
    if r.2 then sortEstabs r.1 else r.1

/-- One `empresas.csv` row (columns of `COLS_EMPRESAS`).  `cnpj_basico` is
required text (it is the `_id` and the grouping key); the rest is nullable. -/
structure EmpresaRow where
  cnpj_basico : Str
  razao_social : Option Str := none
  natureza_juridica : Option Str := none
  qualificacao_do_responsavel : Option Str := none
  capital_social : Option Str := none
  porte_da_empresa : Option Str := none
  ente_federativo_responsavel : Option Str := none
deriving DecidableEq, Repr

/-- The `porte` sub-object: its description is always a string. -/
structure PorteInfo where
  codigo : Option Str
  descricao : Str
deriving DecidableEq, Repr, Inhabited

/-- The assembled company document of `main` (the parts carried by this
embedding: the scalar/lookup fields and the establishment children). -/
structure EmpresaDoc where
  id : Str
  cnpj_basico : Str
  razao_social : Option Str
  natureza_juridica : Option CodeDesc
  qualificacao_responsavel : Option CodeDesc
  capital_social : ℚ
  porte : Option PorteInfo
  ente_federativo : Option Str
  estabelecimentos : List Estab
deriving DecidableEq, Repr, Inhabited

/-- The company `natureza_juridica` entry: a present code indexes the
`natureza` lookup (KeyError when never loaded) and gets the code
zero-padded to 4. -/
def buildNatureza (row : EmpresaRow) (lookups : Lookups) : Except Unit (Option CodeDesc) :=
  match row.natureza_juridica with
  | none => .ok none
  | some c => (getTable lookups.natureza).map
      (fun t => some ⟨some c, dictGet t (zfill 4 c)⟩)

/-- The company `qualificacao_responsavel` entry (the `qualificacoes` lookup,
code zero-padded to 2). -/
def buildQualResp (row : EmpresaRow) (lookups : Lookups) : Except Unit (Option CodeDesc) :=
  match row.qualificacao_do_responsavel with
  | none => .ok none
  | some c => (getTable lookups.qualificacoes).map
      (fun t => some ⟨some c, dictGet t (zfill 2 c)⟩)

/-- The per-company document assembly of `main`: the doc dict (whose lookup
accesses can raise) followed by the establishment attachment. -/
def build_empresa_doc (row : EmpresaRow) (lookups : Lookups) (g : GroupedEstabs) :
    Except Unit EmpresaDoc := do
  let nat ← buildNatureza row lookups
  let qual ← buildQualResp row lookups
  .ok {
    id := row.cnpj_basico
    cnpj_basico := row.cnpj_basico
    razao_social := row.razao_social
    natureza_juridica := nat
    qualificacao_responsavel := qual
    capital_social := parse_capital_social row.capital_social
    porte :=
      match row.porte_da_empresa with
      | none => none
      | some c => some ⟨some c, get_porte_descricao (some c)⟩
    ente_federativo :=
      match row.ente_federativo_responsavel with
      | none => none
      | some e => if truthy e then some e else none
    estabelecimentos := doc_estabs g row.cnpj_basico lookups }

/-! ### Inversion lemmas for the assemblers -/

/-- Totalise an `Except` for stating concrete witnesses. -/
def exceptOkD {α : Type} [Inhabited α] (x : Except Unit α) : α :=
  match x with
  | .ok v => v
  | .error _ => default

/-- The lookups dict when no reference file was present. -/
def lookupsNone : Lookups := ⟨none, none, none, none, none, none⟩

theorem build_estab_ok_fields {row : EstabRow} {lookups : Lookups} {e : Estab}
    (h : build_estabelecimento row lookups = .ok e) :
    e.cnpj = row.cnpj_basico ++ row.cnpj_ordem ++ row.cnpj_dv
    ∧ e.matriz = (row.identificador_matriz_filial == some "1".data)
    ∧ e.contato = mkContato row := by
  unfold build_estabelecimento at h
  cases hm : buildMotivo row lookups with
  | error u => rw [hm] at h; simp [Bind.bind, Except.bind] at h
  | ok motivo =>
  rw [hm] at h
  cases hc : buildCnaePrincipal row lookups with
  | error u => rw [hc] at h; simp [Bind.bind, Except.bind] at h
  | ok cnae =>
  rw [hc] at h
  cases hmu : buildMunicipio row lookups with
  | error u => rw [hmu] at h; simp [Bind.bind, Except.bind] at h
  | ok municipio =>
  rw [hmu] at h
  cases hp : buildPaisEstab row lookups with
  | error u => rw [hp] at h; simp [Bind.bind, Except.bind] at h
  | ok pais =>
  rw [hp] at h
  simp only [Bind.bind, Except.bind] at h
  injection h with h
  subst h
  exact ⟨rfl, rfl, rfl⟩

theorem build_empresa_doc_fields {row : EmpresaRow} {lookups : Lookups} {g : GroupedEstabs}
    {d : EmpresaDoc} (h : build_empresa_doc row lookups g = .ok d) :
    buildNatureza row lookups = .ok d.natureza_juridica
    ∧ buildQualResp row lookups = .ok d.qualificacao_responsavel
    ∧ d.estabelecimentos = doc_estabs g row.cnpj_basico lookups := by
  unfold build_empresa_doc at h
  cases hn : buildNatureza row lookups with
  | error u => rw [hn] at h; simp [Bind.bind, Except.bind] at h
  | ok nat =>
  rw [hn] at h
  cases hq : buildQualResp row lookups with
  | error u => rw [hq] at h; simp [Bind.bind, Except.bind] at h
  | ok qual =>
  rw [hq] at h
  simp only [Bind.bind, Except.bind] at h
  injection h with h
  subst h
  exact ⟨rfl, rfl, rfl⟩

theorem build_empresa_doc_error_natureza {row : EmpresaRow} {lookups : Lookups}
    {g : GroupedEstabs} (h : buildNatureza row lookups = .error ()) :
    build_empresa_doc row lookups g = .error () := by
  unfold build_empresa_doc
  rw [h]
  rfl

/-- The lookup file layout with only `natureza.csv` missing, and a company
row carrying a non-null legal-nature code. -/
def fsMissingNatureza : LookupFiles :=
  ⟨some [], some [], none, some [], some [], some []⟩

/-- A company row whose `natureza_juridica` code is present. -/
def empRowNat : EmpresaRow :=
  { cnpj_basico := "12345678".data, natureza_juridica := some "2062".data }

/-- Counterexample to C3: with `natureza.csv` absent, `load_lookup_tables`
raises nothing and silently omits the table (no `MissingReferenceError`
exists in the script), and assembling a parent row whose legal-nature code
is non-null then fails with a `KeyError` instead of succeeding with a null
description. -/
theorem missing_lookup_counterexample :
    (load_lookup_tables fsMissingNatureza).natureza = none
    ∧ build_empresa_doc empRowNat (load_lookup_tables fsMissingNatureza) [] = .error () :=
  ⟨rfl, rfl⟩

/-- C3 as amended: an absent reference file is skipped silently by
`load_lookup_tables` (each lookup is loaded exactly when its file exists;
there is no failure path); assembling a row that references a never-loaded
lookup with a non-null code raises `KeyError`; a null description arises
only when the lookup table was loaded but does not contain the code. -/
theorem missing_lookup_amended :
    (∀ fs : LookupFiles,
        (load_lookup_tables fs).natureza = fs.natureza
        ∧ (load_lookup_tables fs).motivos = fs.motivos)
    ∧ (∀ (row : EmpresaRow) (lookups : Lookups) (g : GroupedEstabs) (c : Str),
        lookups.natureza = none → row.natureza_juridica = some c →
        build_empresa_doc row lookups g = .error ())
    ∧ (∀ (row : EmpresaRow) (lookups : Lookups) (g : GroupedEstabs) (t : LookupTable)
        (c : Str) (d : EmpresaDoc),
        lookups.natureza = some t → row.natureza_juridica = some c →
        dictGet t (zfill 4 c) = none →
        build_empresa_doc row lookups g = .ok d →
        d.natureza_juridica = some ⟨some c, none⟩) := by
  refine ⟨fun fs => ⟨rfl, rfl⟩, ?_, ?_⟩
  · intro row lookups g c hl hr
    refine build_empresa_doc_error_natureza ?_
    simp [buildNatureza, hr, hl, getTable, Except.map]
  · intro row lookups g t c d hl hr hmiss hok
    have hnat := (build_empresa_doc_fields hok).1
    rw [buildNatureza, hr, hl] at hnat
    simp only [getTable, Except.map, hmiss] at hnat
    injection hnat with hnat
    exact hnat.symm

/-- Witness for the amended C3 at a concrete row and lookup state. -/
theorem missing_lookup_amended_witness :
    build_empresa_doc empRowNat lookupsNone [] = .error () :=
  missing_lookup_amended.2.1 empRowNat lookupsNone [] "2062".data rfl rfl

/-- C7: a parent key with no matching establishment group yields a children
list that is present and equal to the empty list — the field always exists
with list type, it is `[]` rather than null — and the assembly of that
document raises nothing for the absent group. -/
theorem missing_group_children_empty :
    (∀ (g : GroupedEstabs) (key : Str) (lookups : Lookups),
        get_group g key = none → doc_estabs g key lookups = [])
    ∧ (∀ (row : EmpresaRow) (lookups : Lookups) (g : GroupedEstabs) (d : EmpresaDoc),
        get_group g row.cnpj_basico = none →
        build_empresa_doc row lookups g = .ok d →
        d.estabelecimentos = []) := by
  constructor
  · intro g key lookups h
    simp [doc_estabs, h]
  · intro row lookups g d hg hd
    rw [(build_empresa_doc_fields hd).2.2]
    simp [doc_estabs, hg]

/-- Witness for C7: a company whose key is absent from a nonempty grouped
table assembles with `estabelecimentos = []`. -/
theorem missing_group_children_empty_witness :
    doc_estabs [("99999999".data, [])] "11111111".data lookupsNone = []
    ∧ (exceptOkD (build_empresa_doc { cnpj_basico := "11111111".data } lookupsNone
        [("99999999".data, [])])).estabelecimentos = [] :=
  ⟨missing_group_children_empty.1 [("99999999".data, [])] "11111111".data lookupsNone
      (by decide),
   missing_group_children_empty.2 { cnpj_basico := "11111111".data } lookupsNone
      [("99999999".data, [])] _ (by decide) rfl⟩

/-- C9: an establishment row whose contact columns (both phones, fax and
e-mail, with their DDD prefixes) are all absent or empty assembles with
`contato = null` — the all-null contact block collapses to null rather than
an object of nulls. -/
theorem contato_allnull_collapses (row : EstabRow) (lookups : Lookups) (e : Estab)
    (h1 : row.ddd1 = none ∨ row.ddd1 = some [])
    (h2 : row.telefone1 = none ∨ row.telefone1 = some [])
    (h3 : row.ddd2 = none ∨ row.ddd2 = some [])
    (h4 : row.telefone2 = none ∨ row.telefone2 = some [])
    (h5 : row.ddd_do_fax = none ∨ row.ddd_do_fax = some [])
    (h6 : row.fax = none ∨ row.fax = some [])
    (h7 : row.correio_eletronico = none ∨ row.correio_eletronico = some [])
    (hb : build_estabelecimento row lookups = .ok e) :
    e.contato = none := by
  rw [(build_estab_ok_fields hb).2.2]
  rcases h1 with h1 | h1 <;> rcases h2 with h2 | h2 <;> rcases h3 with h3 | h3 <;>
    rcases h4 with h4 | h4 <;> rcases h5 with h5 | h5 <;> rcases h6 with h6 | h6 <;>
    rcases h7 with h7 | h7 <;>
    simp [mkContato, h1, h2, h3, h4, h5, h6, h7, truthy]

/-- A concrete establishment row with every optional column null. -/
def estabRowBare : EstabRow :=
  { cnpj_basico := "12345678".data, cnpj_ordem := "0001".data, cnpj_dv := "95".data }

/-- Witness for C9 at a concrete all-null-contact row. -/
theorem contato_allnull_collapses_witness :
    (exceptOkD (build_estabelecimento estabRowBare lookupsNone)).contato = none :=
  contato_allnull_collapses estabRowBare lookupsNone _
    (Or.inl rfl) (Or.inl rfl) (Or.inl rfl) (Or.inl rfl) (Or.inl rfl) (Or.inl rfl)
    (Or.inl rfl) rfl

/-! ### Ordering of the establishment children (C4) -/

theorem strLtB_append_lt {x y : Char} (hxy : x < y) (p xs ys : Str) :
    strLtB (p ++ x :: xs) (p ++ y :: ys) = true := by
  induction p with
  | nil => simp [strLtB, hxy]
  | cons c p ih => simp [strLtB, lt_irrefl, ih]

theorem strLtB_append_ge {x y : Char} (hxy : x < y) (p xs ys : Str) :
    strLtB (p ++ y :: ys) (p ++ x :: xs) = false := by
  induction p with
  | nil => simp [strLtB, asymm hxy, hxy]
  | cons c p ih => simp [strLtB, lt_irrefl, ih]

/-- C4: a child group holding exactly one matriz row and two non-matriz rows
with identifiers `"0001"` and `"0002"` (all sharing the parent base
identifier), presented to the assembler in any order, yields the
establishment list `[matriz, "0001", "0002"]`: the primary record first, the
remaining records ascending by identifier string. -/
theorem estab_children_sorted
    (pr ar br : EstabRow) (key : Str) (lookups : Lookups) (ep ea eb : Estab)
    (hab : ar.cnpj_basico = pr.cnpj_basico) (hbb : br.cnpj_basico = pr.cnpj_basico)
    (hpi : pr.identificador_matriz_filial = some "1".data)
    (hai : ar.identificador_matriz_filial ≠ some "1".data)
    (hbi : br.identificador_matriz_filial ≠ some "1".data)
    (hao : ar.cnpj_ordem = "0001".data) (hbo : br.cnpj_ordem = "0002".data)
    (hep : build_estabelecimento pr lookups = .ok ep)
    (hea : build_estabelecimento ar lookups = .ok ea)
    (heb : build_estabelecimento br lookups = .ok eb)
    (l : List EstabRow)
    (hl : l = [pr, ar, br] ∨ l = [pr, br, ar] ∨ l = [ar, pr, br] ∨
          l = [ar, br, pr] ∨ l = [br, pr, ar] ∨ l = [br, ar, pr]) :
    doc_estabs [(key, l)] key lookups = [ep, ea, eb] := by
  obtain ⟨hpc, hpm, -⟩ := build_estab_ok_fields hep
  obtain ⟨hac, ham, -⟩ := build_estab_ok_fields hea
  obtain ⟨hbc, hbm, -⟩ := build_estab_ok_fields heb
  have hpm1 : ep.matriz = true := by
    rw [hpm, hpi]
    simp
  have ham1 : ea.matriz = false := by
    rw [ham]
    simpa using hai
  have hbm1 : eb.matriz = false := by
    rw [hbm]
    simpa using hbi
  have hacnpj : ea.cnpj = (pr.cnpj_basico ++ ['0', '0', '0']) ++ '1' :: ar.cnpj_dv := by
    rw [hac, hab, hao]
    simp
  have hbcnpj : eb.cnpj = (pr.cnpj_basico ++ ['0', '0', '0']) ++ '2' :: br.cnpj_dv := by
    rw [hbc, hbb, hbo]
    simp
  have h12 : ('1' : Char) < '2' := by decide
  have hK1 : estabKeyLt ep ea = true := by simp [estabKeyLt, hpm1, ham1]
  have hK2 : estabKeyLt ea ep = false := by simp [estabKeyLt, hpm1, ham1]
  have hK3 : estabKeyLt ep eb = true := by simp [estabKeyLt, hpm1, hbm1]
  have hK4 : estabKeyLt eb ep = false := by simp [estabKeyLt, hpm1, hbm1]
  have hS1 : strLtB (pr.cnpj_basico ++ '0' :: '0' :: '0' :: '1' :: ar.cnpj_dv)
      (pr.cnpj_basico ++ '0' :: '0' :: '0' :: '2' :: br.cnpj_dv) = true := by
    simpa using strLtB_append_lt h12 (pr.cnpj_basico ++ ['0', '0', '0']) ar.cnpj_dv br.cnpj_dv
  have hS2 : strLtB (pr.cnpj_basico ++ '0' :: '0' :: '0' :: '2' :: br.cnpj_dv)
      (pr.cnpj_basico ++ '0' :: '0' :: '0' :: '1' :: ar.cnpj_dv) = false := by
    simpa using strLtB_append_ge h12 (pr.cnpj_basico ++ ['0', '0', '0']) ar.cnpj_dv br.cnpj_dv
  have hK5 : estabKeyLt ea eb = true := by
    simp [estabKeyLt, ham1, hbm1, hacnpj, hbcnpj, hS1]
  have hK6 : estabKeyLt eb ea = false := by
    simp [estabKeyLt, ham1, hbm1, hacnpj, hbcnpj, hS2]
  have hg : get_group [(key, l)] key = some l := by simp [get_group]
  rcases hl with rfl | rfl | rfl | rfl | rfl | rfl <;>
    simp [doc_estabs, hg, build_estabs_loop, hep, hea, heb, sortEstabs, sortByLe,
      insertLe, hK1, hK2, hK3, hK4, hK5, hK6]

/-- The matriz row of the C4 witness scenario for base key `"12345678"`. -/
def estabRowMatriz : EstabRow :=
  { cnpj_basico := "12345678".data, cnpj_ordem := "0001".data, cnpj_dv := "95".data,
    identificador_matriz_filial := some "1".data }

/-- The `"0001"` branch row of the C4 witness scenario. -/
def estabRowFilial1 : EstabRow :=
  { cnpj_basico := "12345678".data, cnpj_ordem := "0001".data, cnpj_dv := "76".data,
    identificador_matriz_filial := some "2".data }

/-- The `"0002"` branch row of the C4 witness scenario. -/
def estabRowFilial2 : EstabRow :=
  { cnpj_basico := "12345678".data, cnpj_ordem := "0002".data, cnpj_dv := "57".data,
    identificador_matriz_filial := some "2".data }

/-- Witness for C4: the three concrete rows for key `"12345678"`, presented
in the order `[branch "0002", matriz, branch "0001"]`, assemble into the
list `[matriz, "0001", "0002"]`. -/
theorem estab_children_sorted_witness :
    doc_estabs [("12345678".data, [estabRowFilial2, estabRowMatriz, estabRowFilial1])]
        "12345678".data lookupsNone
      = [exceptOkD (build_estabelecimento estabRowMatriz lookupsNone),
         exceptOkD (build_estabelecimento estabRowFilial1 lookupsNone),
         exceptOkD (build_estabelecimento estabRowFilial2 lookupsNone)] :=
  estab_children_sorted estabRowMatriz estabRowFilial1 estabRowFilial2 "12345678".data
    lookupsNone _ _ _ rfl rfl (by decide) (by decide) (by decide) rfl rfl rfl rfl rfl
    [estabRowFilial2, estabRowMatriz, estabRowFilial1]
    (Or.inr (Or.inr (Or.inr (Or.inr (Or.inl rfl)))))

end Cnpj
